import Mathlib

/-!
Verification of the FontGen repository's template-grid geometry,
character extraction, property resolution and filename codec.

Every definition is a shallow embedding of the corresponding Python code
in `src/cli/fontgen.py`, `src/web_app/core/font_generator.py`,
`src/web_app/core/cli_wrapper.py` and `src/web_app/main.py`.
Machine floats are modelled as rationals; Python `int()` truncation is
modelled explicitly; file-system effects are modelled as explicit lists
of paths.
-/

namespace FontGen

/-- A cell rectangle `(x, y, width, height)` in design space. -/
structure Rect where
  x : Int
  y : Int
  w : Int
  h : Int
  deriving DecidableEq, Repr

/-- A PIL crop box `(left, upper, right, lower)`. -/
structure CropBox where
  left : Int
  upper : Int
  right : Int
  lower : Int
  deriving DecidableEq, Repr

/-- Python `int()` applied to a float/rational: truncation toward zero. -/
def pyInt (q : Rat) : Int :=
  if 0 ≤ q then ⌊q⌋ else ⌈q⌉

/-! ### CLI geometry — `src/cli/fontgen.py`

`FontGeneratorPotrace.generate_template_svg` (lines 108-145) and
`FontGeneratorPotrace.extract_characters_from_image` (lines 172-198).
The CLI has parameters `grid_cols`, `template_size`, `margin`; the margin
value doubles as inter-cell spacing, and the header allowance is the
literal `50`. -/

/-- Source `rows = (len(self.characters) + self.grid_cols - 1) // self.grid_cols`
(fontgen.py line 110, identical at line 183). -/
def cliRows (n cols : Nat) : Nat :=
  (n + cols - 1) / cols

/-- Source `width = self.grid_cols * (self.template_size + self.margin) + self.margin`
(fontgen.py line 112). -/
def cliWidth (cols ts m : Nat) : Nat :=
  cols * (ts + m) + m

/-- Source `height = rows * (self.template_size + self.margin) + self.margin + 50`
(fontgen.py line 113). -/
def cliHeight (n cols ts m : Nat) : Nat :=
  cliRows n cols * (ts + m) + m + 50

/-- The cell rectangle drawn for character index `i` by
`generate_template_svg` (fontgen.py lines 126-133):
`row = i // grid_cols`, `col = i % grid_cols`,
`x = col * (template_size + margin) + margin`,
`y = row * (template_size + margin) + margin + 50`,
with a square box of side `template_size`. -/
def cliTemplateRect (cols ts m : Nat) (i : Nat) : Rect :=
  let row := i / cols
  let col := i % cols
  { x := (col * (ts + m) + m : Nat)
    y := (row * (ts + m) + m + 50 : Nat)
    w := (ts : Nat)
    h := (ts : Nat) }

/-- The crop box used for character index `i` by
`extract_characters_from_image` (fontgen.py lines 185-192):
the same `x`/`y` formulas, cropping
`(x, y, x + template_size, y + template_size)`.  No scale factor is
applied anywhere in this function. -/
def cliCropBox (cols ts m : Nat) (i : Nat) : CropBox :=
  let row := i / cols
  let col := i % cols
  let x : Int := (col * (ts + m) + m : Nat)
  let y : Int := (row * (ts + m) + m + 50 : Nat)
  { left := x, upper := y, right := x + (ts : Nat), lower := y + (ts : Nat) }

/-! ### Web geometry — `src/web_app/core/font_generator.py`

`FontGenerator.generate_template_svg` (lines 128-181) and
`FontGenerator.extract_characters_from_image` (lines 207-256).
Parameters `box_size`, `box_spacing`, `margin`; `chars_per_row` is the
literal `13` in both functions; there is no header row. -/

/-- Source `num_rows = (len(characters) + chars_per_row - 1) // chars_per_row`
with `chars_per_row = 13` (font_generator.py lines 134-135). -/
def webRows (n : Nat) : Nat :=
  (n + 13 - 1) / 13

/-- Source `width = margin + (chars_per_row * (box_size + box_spacing)) - box_spacing + margin`
(font_generator.py line 144). -/
def webWidth (bs sp m : Int) : Int :=
  m + (13 * (bs + sp)) - sp + m

/-- Source `height = margin + (num_rows * (box_size + box_spacing)) - box_spacing + margin`
(font_generator.py line 145). -/
def webHeight (n : Nat) (bs sp m : Int) : Int :=
  m + ((webRows n : Int) * (bs + sp)) - sp + m

/-- The cell rectangle drawn for character index `i` by the web
`generate_template_svg` (font_generator.py lines 158-171):
`x = margin + col * (box_size + box_spacing)`,
`y = margin + row * (box_size + box_spacing)`, square of side `box_size`. -/
def webTemplateRect (bs sp m : Int) (i : Nat) : Rect :=
  let row : Int := (i / 13 : Nat)
  let col : Int := (i % 13 : Nat)
  { x := m + col * (bs + sp)
    y := m + row * (bs + sp)
    w := bs
    h := bs }

/-- Source `expected_width = margin + (chars_per_row * (box_size + box_spacing)) - box_spacing + margin`
(font_generator.py line 230): the canvas width the extraction assumes the
template was rendered at. -/
def webExpectedWidth (bs sp m : Int) : Int :=
  m + (13 * (bs + sp)) - sp + m

/-- Source `scale_factor = img.width / expected_width` (font_generator.py line 231). -/
def webScaleFactor (imgW : Int) (bs sp m : Int) : Rat :=
  (imgW : Rat) / (webExpectedWidth bs sp m : Rat)

/-- The crop box used for character index `i` by the web
`extract_characters_from_image` (font_generator.py lines 237-247):
`x = int((margin + col * (box_size + box_spacing)) * scale_factor)`,
`y = int((margin + row * (box_size + box_spacing)) * scale_factor)`,
`scaled_box_size = int(box_size * scale_factor)`, cropping
`(x, y, x + scaled_box_size, y + scaled_box_size)`. -/
def webCropBox (imgW : Int) (bs sp m : Int) (i : Nat) : CropBox :=
  let row : Int := (i / 13 : Nat)
  let col : Int := (i % 13 : Nat)
  let σ := webScaleFactor imgW bs sp m
  let x := pyInt ((m + col * (bs + sp) : Int) * σ)
  let y := pyInt ((m + row * (bs + sp) : Int) * σ)
  let sbs := pyInt ((bs : Rat) * σ)
  { left := x, upper := y, right := x + sbs, lower := y + sbs }

/-- Following the specification's words for claim C2 (for comparison with
the code): "Extraction resolves a scale factor equal to
observedImageWidth divided by the geometry's canvasWidth, and for each
character ... scales every coordinate of that character's cell rectangle
by this factor, rounds to integer pixel bounds, and crops the scaled
rectangle", applied to the CLI geometry. -/
def claimScaledCliCrop (imgW : Int) (cols ts m : Nat) (i : Nat) : CropBox :=
  let σ : Rat := (imgW : Rat) / (cliWidth cols ts m : Rat)
  let r := cliTemplateRect cols ts m i
  { left := round ((r.x : Rat) * σ)
    upper := round ((r.y : Rat) * σ)
    right := round (((r.x + r.w : Int) : Rat) * σ)
    lower := round (((r.y + r.h : Int) : Rat) * σ) }

/-- Is a crop box contained in an image of `W × H` pixels? -/
def inBounds (b : CropBox) (W H : Int) : Bool :=
  0 ≤ b.left && 0 ≤ b.upper && b.right ≤ W && b.lower ≤ H

/-- Outcome of `FontGeneratorPotrace.extract_characters_from_image`
(fontgen.py lines 172-198).  The function returns `False` when opening
the image raises, and otherwise creates the character directory, crops
and saves one image per character unconditionally (PIL's `crop` pads
out-of-bounds regions and never raises), and returns the directory path.
There is no per-character error handling and no failure list. -/
structure CliExtractOutcome where
  returnedFalse : Bool
  dirCreated : Bool
  files : List (Char × CropBox)
  deriving DecidableEq, Repr

/-- Function `extract_characters_from_image` (fontgen.py lines 172-198), with the
success of `Image.open` made explicit as the `openOk` flag.  On open
failure the function prints and returns `False` before any directory is
created or file written; otherwise every character is cropped and saved. -/
def cliExtractFromImage (openOk : Bool) (chars : List Char)
    (cols ts m : Nat) : CliExtractOutcome :=
  if openOk then
    { returnedFalse := false
      dirCreated := true
      files := chars.enum.map fun p => (p.2, cliCropBox cols ts m p.1) }
  else
    { returnedFalse := true, dirCreated := false, files := [] }

/-! ### Character property resolution — `src/cli/fontgen.py`

`FontGeneratorPotrace.__init__` (lines 37-63) builds `char_properties`
from the configured character sets and the optional external overrides
file.  Floats and ints are both modelled as rationals. -/

/-- One entry of `config['font_generation']['character_sets']`
(fontgen.py lines 37-48). -/
structure SetData where
  characters : List Char
  scale_factor : Rat
  baseline_offset : Rat
  individual_scaling : List (Char × Rat)
  individual_positioning : List (Char × Rat)
  deriving DecidableEq, Repr

/-- One entry of the external character-overrides JSON: a partial patch
applied with `properties.update(overrides)` (fontgen.py line 60).  Only
the keys relevant to glyph geometry are modelled. -/
structure OverridePatch where
  scale_factor : Option Rat
  baseline_offset : Option Rat
  deriving DecidableEq, Repr

/-- The per-character property record stored in `self.char_properties`
(fontgen.py lines 51-55). -/
structure CharProps where
  scale_factor : Rat
  baseline_offset : Rat
  set : String
  deriving DecidableEq, Repr

/-- Python `properties.update(overrides)` for the modelled keys: every key
present in the patch replaces the existing value. -/
def applyOverride (p : CharProps) (o : OverridePatch) : CharProps :=
  { scale_factor := o.scale_factor.getD p.scale_factor
    baseline_offset := o.baseline_offset.getD p.baseline_offset
    set := p.set }

/-- The property record computed inside the loop of `__init__`
(fontgen.py lines 42-61) for one character of one set:
`scale_factor = individual_scaling.get(char, set_data['scale_factor'])`,
`baseline_offset = individual_positioning.get(char, set_data['baseline_offset'])`,
then the external override patch if the character has one. -/
def resolveProps (setName : String) (sd : SetData)
    (overrides : List (Char × OverridePatch)) (c : Char) : CharProps :=
  let base : CharProps :=
    { scale_factor := (List.lookup c sd.individual_scaling).getD sd.scale_factor
      baseline_offset := (List.lookup c sd.individual_positioning).getD sd.baseline_offset
      set := setName }
  match List.lookup c overrides with
  | some o => applyOverride base o
  | none => base

/-- Mapping `self.char_properties` after `__init__` (fontgen.py lines 37-63):
iterate the character sets in order and, within a set, the characters in
order, assigning `char_properties[char] = properties`; a later
occurrence of the same character overwrites an earlier one. -/
def buildCharProperties (char_sets : List (String × SetData))
    (overrides : List (Char × OverridePatch)) : Char → Option CharProps :=
  char_sets.foldl
    (fun acc p =>
      p.2.characters.foldl
        (fun acc2 c => Function.update acc2 c (some (resolveProps p.1 p.2 overrides c)))
        acc)
    (fun _ => none)

/-! ### Filename codec — `src/web_app/core/cli_wrapper.py`

`CLIWrapper._char_to_filename` (lines 281-295) and
`CLIWrapper._filename_to_char` (lines 297-310).  Filenames are modelled
as lists of characters. -/

/-- The literal `char_map` of `_char_to_filename` (cli_wrapper.py
lines 283-288). -/
def specialFilenameMap : List (Char × List Char) :=
  [('/', "slash".toList), ('\\', "backslash".toList), (':', "colon".toList),
   ('*', "asterisk".toList), ('?', "question".toList), ('"', "quote".toList),
   ('\'', "apostrophe".toList), ('<', "less".toList), ('>', "greater".toList),
   ('|', "pipe".toList), (' ', "space".toList)]

/-- The literal `char_map` of `_filename_to_char` (cli_wrapper.py
lines 299-304). -/
def reverseFilenameMap : List (List Char × Char) :=
  [("slash".toList, '/'), ("backslash".toList, '\\'), ("colon".toList, ':'),
   ("asterisk".toList, '*'), ("question".toList, '?'), ("quote".toList, '"'),
   ("apostrophe".toList, '\''), ("less".toList, '<'), ("greater".toList, '>'),
   ("pipe".toList, '|'), ("space".toList, ' ')]

/-- Python's `str.isalnum()` for a single character, modelled for code
points below `0x100` (which covers every character this repository
places in a template: printable ASCII and Latin-1 accented letters):
ASCII letters and digits, the Latin-1 letters `ª µ º` and the ranges
`À-ÿ` minus `× ÷`, and the Latin-1 numeric characters `² ³ ¹ ¼ ½ ¾`. -/
def pyIsAlnum (c : Char) : Bool :=
  let n := c.toNat
  c.isAlphanum ||
    (n == 0xAA) || (n == 0xB5) || (n == 0xBA) ||
    (n == 0xB2) || (n == 0xB3) || (n == 0xB9) ||
    (n == 0xBC) || (n == 0xBD) || (n == 0xBE) ||
    (0xC0 ≤ n && n ≤ 0xFF && !(n == 0xD7) && !(n == 0xF7))

/-- Python `int(s)` for a string of decimal digits. -/
def digitsToNat (l : List Char) : Nat :=
  l.foldl (fun a c => 10 * a + (c.toNat - 48)) 0

/-- Function `_char_to_filename` (cli_wrapper.py lines 281-295): special
characters map through `char_map`; otherwise any character that is not
alphanumeric and not in `-_.` becomes `char_<ord>`; all remaining
characters are their own filename. -/
def charToFilename (c : Char) : List Char :=
  match List.lookup c specialFilenameMap with
  | some s => s
  | none =>
    if !(pyIsAlnum c) && !(c ∈ ['-', '_', '.']) then
      "char_".toList ++ Nat.toDigits 10 c.toNat
    else [c]

/-- Function `_filename_to_char` (cli_wrapper.py lines 297-310): a filename
`char_<digits>` decodes through `chr(int(...))`; otherwise the reverse
`char_map` applies, and any other filename is returned unchanged. -/
def filenameToChar (s : List Char) : List Char :=
  if s.take 5 == "char_".toList && !(s.drop 5).isEmpty && (s.drop 5).all Char.isDigit then
    [Char.ofNat (digitsToNat (s.drop 5))]
  else
    match List.lookup s reverseFilenameMap with
    | some c => [c]
    | none => s

/-- The 95 printable ASCII characters `' '..'~'`. -/
def printableAscii : List Char :=
  (List.range 95).map fun k => Char.ofNat (32 + k)

/-! ### Label escaping — template rendering

`html.escape(char)` at fontgen.py line 137 and the explicit escape table
at font_generator.py lines 165-168. -/

/-- Python `html.escape(char)` for a one-character string (fontgen.py
line 137): `html.escape` replaces `&`, `<`, `>`, `"`, `'` (in that
order, so entities are not re-escaped) with their entity references. -/
def htmlEscapeChar (c : Char) : List Char :=
  if c = '&' then "&amp;".toList
  else if c = '<' then "&lt;".toList
  else if c = '>' then "&gt;".toList
  else if c = '"' then "&quot;".toList
  else if c = '\'' then "&#x27;".toList
  else [c]

/-- The escape dictionary of the web renderer (font_generator.py
line 168). -/
def webEscapeMap : List (Char × List Char) :=
  [('<', "&lt;".toList), ('>', "&gt;".toList), ('&', "&amp;".toList),
   ('"', "&quot;".toList), ('\'', "&#39;".toList)]

/-- Label `display_char` as computed by the web renderer (font_generator.py
lines 166-168): special characters go through the dictionary, all other
characters are embedded verbatim. -/
def webDisplayChar (c : Char) : List Char :=
  if c ∈ ['<', '>', '&', '"', '\''] then (List.lookup c webEscapeMap).getD [c]
  else [c]

/-- The entity references the two renderers may emit. -/
def entityRefs : List (List Char) :=
  ["&lt;".toList, "&gt;".toList, "&amp;".toList,
   "&quot;".toList, "&#x27;".toList, "&#39;".toList]

/-! ### Template PNG generation — `src/cli/fontgen.py`

`generate_template_png` (lines 147-160) and `svg_to_png`
(lines 162-170), modelled as transformers of a file system given as the
list of existing paths.  `cairoAvailable` makes the `import cairosvg`
outcome explicit. -/

/-- Function `svg_to_png` (fontgen.py lines 162-170): when `cairosvg` imports it
writes the PNG; when the import fails it only prints a message and
writes nothing.  It never raises. -/
def svgToPng (cairoAvailable : Bool) (fs : List String)
    (svgPath pngPath : String) : List String :=
  if cairoAvailable then pngPath :: fs else fs

/-- Function `generate_template_png` (fontgen.py lines 147-160): writes the SVG
template at `svg_path = output_path.replace('.png', '.svg')`, converts
it with `svg_to_png`, then removes the SVG in a `try`/`except` cleanup
(a missing file is ignored).  `svgPath` stands for the derived
`svg_path`. -/
def generateTemplatePngFS (cairoAvailable : Bool) (fs : List String)
    (svgPath pngPath : String) : List String :=
  let fs1 := svgPath :: fs
  let fs2 := svgToPng cairoAvailable fs1 svgPath pngPath
  fs2.erase svgPath

/-- The `template --format svg --convert-to-png` path of `main`
(fontgen.py lines 498-503): the SVG is written at the output path and
`svg_to_png` is attempted; nothing is removed. -/
def generateTemplateSvgConvertFS (cairoAvailable : Bool) (fs : List String)
    (svgPath pngPath : String) : List String :=
  svgToPng cairoAvailable (svgPath :: fs) svgPath pngPath

/-! ### Shared-generator mutation — `src/web_app/main.py`

`generate_template` (lines 47-115) against the module-level shared
`font_gen = FontGenerator(...)` (line 31). -/

/-- One entry of the web configuration's `character_sets`
(font_generator.py `_build_char_properties`, lines 84-99, reads exactly
these fields). -/
structure WebSetData where
  characters : List Char
  scale_factor : Rat
  baseline_offset : Rat
  deriving DecidableEq, Repr

/-- The per-character record built by `_build_char_properties`
(font_generator.py lines 95-98). -/
structure WebCharProps where
  scale_factor : Rat
  baseline_offset : Rat
  deriving DecidableEq, Repr

/-- Method `FontGenerator._build_char_properties` (font_generator.py
lines 84-99): every character of every set maps to the set's
`scale_factor`/`baseline_offset`; later sets overwrite earlier ones. -/
def webBuildCharProperties (character_sets : List (String × WebSetData)) :
    Char → Option WebCharProps :=
  character_sets.foldl
    (fun acc p =>
      p.2.characters.foldl
        (fun acc2 c =>
          Function.update acc2 c
            (some { scale_factor := p.2.scale_factor
                    baseline_offset := p.2.baseline_offset }))
        acc)
    (fun _ => none)

/-- The part of `FontGenerator.config` that `generate_template` swaps:
its `character_sets` section (the other config sections are carried over
unchanged by `font_gen.config.copy()` and are not modelled). -/
structure WebConfig where
  character_sets : List (String × WebSetData)
  deriving DecidableEq, Repr

/-- The mutable state of the shared `font_gen` instance: its `config`
and its `char_properties`. -/
structure GeneratorState where
  config : WebConfig
  char_properties : Char → Option WebCharProps

/-- Value `temp_config` for a plain list of selected characters (main.py
lines 64-75): the copied config's `character_sets` is replaced by a
single `custom` set with `scale_factor` 3.5 and `baseline_offset` 130. -/
def customTempConfig (cfg : WebConfig) (selected : List Char) : WebConfig :=
  { cfg with
      character_sets :=
        [("custom", { characters := selected, scale_factor := 7 / 2, baseline_offset := 130 })] }

/-- The successive states of the shared `font_gen` during
`generate_template` (main.py lines 63-92): the pre-call state, the state
after `font_gen.config = temp_config; font_gen.char_properties = ...`
(lines 81-83), and the state after the restore (lines 91-92).  The
`generate_template_svg` call in between does not assign to the
generator. -/
def generateTemplateStates (s0 : GeneratorState) (selected : List Char) :
    List GeneratorState :=
  let temp := customTempConfig s0.config selected
  let s1 : GeneratorState :=
    { config := temp, char_properties := webBuildCharProperties temp.character_sets }
  let s2 : GeneratorState :=
    { config := s0.config
      char_properties := webBuildCharProperties s0.config.character_sets }
  [s0, s1, s2]

end FontGen

namespace FontGen

/-- C1: in each implementation the cell rectangle used by template
rendering and the one used by character extraction (before any scale is
applied) are identical.  For every index the CLI extraction crop box is
exactly the CLI template cell rectangle, and the web extraction crop box
is the web template cell rectangle with every coordinate scaled by the
resolved factor and truncated — i.e. its pre-scale rectangle is the
template's. -/
theorem cellrect_render_extract_agree (cols ts m i : Nat) (imgW bs sp mg : Int) (j : Nat) :
    (cliCropBox cols ts m i =
      { left := (cliTemplateRect cols ts m i).x
        upper := (cliTemplateRect cols ts m i).y
        right := (cliTemplateRect cols ts m i).x + (cliTemplateRect cols ts m i).w
        lower := (cliTemplateRect cols ts m i).y + (cliTemplateRect cols ts m i).h }) ∧
    (webCropBox imgW bs sp mg j =
      { left := pyInt ((webTemplateRect bs sp mg j).x * webScaleFactor imgW bs sp mg)
        upper := pyInt ((webTemplateRect bs sp mg j).y * webScaleFactor imgW bs sp mg)
        right := pyInt ((webTemplateRect bs sp mg j).x * webScaleFactor imgW bs sp mg)
                  + pyInt ((webTemplateRect bs sp mg j).w * webScaleFactor imgW bs sp mg)
        lower := pyInt ((webTemplateRect bs sp mg j).y * webScaleFactor imgW bs sp mg)
                  + pyInt ((webTemplateRect bs sp mg j).h * webScaleFactor imgW bs sp mg) }) := by
  exact ⟨rfl, rfl⟩

/-- C2 counterexample: with the default CLI geometry (13 columns, cell
100, margin 20, canvas width 1580) and an observed image exactly twice
the canvas width (3160), the claim's scaled crop for character 0 is
(40, 140, 240, 340), but the CLI extraction crops the unscaled cell
rectangle (20, 70, 120, 170): the CLI extraction applies no scale
factor. -/
theorem cli_crop_ignores_scale_cex :
    cliCropBox 13 100 20 0 = { left := 20, upper := 70, right := 120, lower := 170 } ∧
    claimScaledCliCrop 3160 13 100 20 0 =
      { left := 40, upper := 140, right := 240, lower := 340 } ∧
    cliCropBox 13 100 20 0 ≠ claimScaledCliCrop 3160 13 100 20 0 := by
  have h : claimScaledCliCrop 3160 13 100 20 0 =
      { left := 40, upper := 140, right := 240, lower := 340 } := by
    simp only [claimScaledCliCrop, cliTemplateRect, cliWidth]
    norm_num [round_eq]
  refine ⟨rfl, h, ?_⟩
  rw [h]
  decide

/-- C2 amended: the web extraction resolves a scale factor equal to the
observed image width divided by the width the web template renderer
computes for the same parameters, and for each character it scales each
coordinate of that character's template cell rectangle by this factor
and truncates it to an integer (Python `int()`), the cropped square's
side being the truncated scaled cell size. -/
theorem web_extraction_resolves_scale (imgW bs sp m : Int) (i : Nat) :
    webScaleFactor imgW bs sp m = (imgW : Rat) / (webWidth bs sp m : Rat) ∧
    (webCropBox imgW bs sp m i).left =
      pyInt ((webTemplateRect bs sp m i).x * webScaleFactor imgW bs sp m) ∧
    (webCropBox imgW bs sp m i).upper =
      pyInt ((webTemplateRect bs sp m i).y * webScaleFactor imgW bs sp m) ∧
    (webCropBox imgW bs sp m i).right - (webCropBox imgW bs sp m i).left =
      pyInt ((bs : Rat) * webScaleFactor imgW bs sp m) ∧
    (webCropBox imgW bs sp m i).lower - (webCropBox imgW bs sp m i).upper =
      pyInt ((bs : Rat) * webScaleFactor imgW bs sp m) := by
  refine ⟨rfl, rfl, rfl, ?_, ?_⟩ <;>
    simp [webCropBox, webTemplateRect]

/-- C3 counterexample: for columns=13, cellSize=100, margin=20,
spacing=20 (the CLI uses its margin as the spacing), headerHeight=50 and
26 characters, the code computes canvas width 1580, not 1780, and canvas
height 310, not 290. -/
theorem grid_dimensions_cex :
    cliWidth 13 100 20 ≠ 1780 ∧ cliHeight 26 13 100 20 ≠ 290 := by
  decide

/-- C3 amended: for columns=13, cellSize=100, margin=spacing=20,
headerHeight=50 and 26 characters, rows = ceil(26/13) = 2, canvas width
is 1580 (the web template renderer agrees), and canvas height is 310. -/
theorem grid_dimensions_concrete :
    cliRows 26 13 = 2 ∧ cliWidth 13 100 20 = 1580 ∧
    cliHeight 26 13 100 20 = 310 ∧ webWidth 100 20 20 = 1580 := by
  decide

/-- C4 counterexample: a CLI extraction over 10 characters with 3
columns, cell 100, margin 20 on a 400×450 image, where exactly one
character's crop box (the tenth, spanning rows 430..530) falls outside
the image: the run crops and saves all 10 characters (10 successful
entries, not 9) and the result records no failure at all (the outcome
carries only the saved files and the directory; there is no failure
list). -/
theorem extraction_no_partial_failure_cex :
    ((cliExtractFromImage true "ABCDEFGHIJ".toList 3 100 20).files.filter
        (fun p => !(inBounds p.2 400 450))).length = 1 ∧
    (cliExtractFromImage true "ABCDEFGHIJ".toList 3 100 20).files.length = 10 ∧
    (cliExtractFromImage true "ABCDEFGHIJ".toList 3 100 20).files.length ≠ 9 ∧
    (cliExtractFromImage true "ABCDEFGHIJ".toList 3 100 20).returnedFalse = false := by
  refine ⟨?_, ?_, ?_, rfl⟩ <;> decide

/-- C4 amended: whenever the input image opens, the CLI extraction crops
and saves every character unconditionally — out-of-bounds cells are
cropped anyway (the image library pads them) — so the batch never aborts,
but it reports no per-character success/failure breakdown: the result is
one saved file per character and a directory path. -/
theorem extraction_crops_every_character (chars : List Char) (cols ts m : Nat) :
    ((cliExtractFromImage true chars cols ts m).files.length = chars.length) ∧
    (cliExtractFromImage true chars cols ts m).returnedFalse = false := by
  constructor
  · simp [cliExtractFromImage]
  · rfl

/-- Folding `Function.update` over a character list: a character that
occurs in the list ends up mapped to its computed record, any other
point is left to the accumulator. -/
theorem foldl_update_lookup {β : Type} (f : Char → β) (chars : List Char)
    (acc : Char → Option β) (c : Char) :
    (chars.foldl (fun a x => Function.update a x (some (f x))) acc) c
      = if c ∈ chars then some (f c) else acc c := by
  induction chars generalizing acc with
  | nil => simp
  | cons x xs ih =>
    simp only [List.foldl_cons, ih, List.mem_cons]
    by_cases hx : c ∈ xs
    · simp [hx]
    · by_cases hcx : c = x
      · subst hcx
        simp [hx, Function.update_apply]
      · simp [hx, hcx, Function.update_apply]

/-- C5: for a character of a set whose default `scale_factor` is 3.0,
whose `individual_scaling` entry for the character is 2.0, and for which
the external overrides file patches `scale_factor` to 1.5, the resolved
property record carries `scale_factor` 1.5: the external override wins
over both the set default and the set's per-character override. -/
theorem override_precedence (setName : String) (sd : SetData)
    (overrides : List (Char × OverridePatch)) (c : Char) (b : Option Rat)
    (hc : c ∈ sd.characters)
    (hset : sd.scale_factor = 3)
    (hind : List.lookup c sd.individual_scaling = some 2)
    (hovr : List.lookup c overrides = some { scale_factor := some (3 / 2), baseline_offset := b }) :
    (buildCharProperties [(setName, sd)] overrides c).map CharProps.scale_factor
      = some (3 / 2) := by
  unfold buildCharProperties
  simp only [List.foldl_cons, List.foldl_nil]
  rw [foldl_update_lookup]
  simp [hc, resolveProps, hovr, applyOverride]

/-- C5 witness: a concrete set `{a}` with default 3, individual scaling
2 for `a`, and an external patch 1.5 resolves `a` to 1.5. -/
theorem override_precedence_witness :
    (buildCharProperties
      [("test", { characters := ['a'], scale_factor := 3, baseline_offset := 100,
                  individual_scaling := [('a', 2)], individual_positioning := [] })]
      [('a', { scale_factor := some (3 / 2), baseline_offset := none })] 'a').map
        CharProps.scale_factor = some (3 / 2) :=
  override_precedence "test" _ _ 'a' none (by simp) rfl rfl rfl

/-- C6: for every printable ASCII character and for `ñ`, converting to a
filename and back returns the original character. -/
theorem filename_roundtrip :
    ∀ c ∈ printableAscii ++ ['ñ'], filenameToChar (charToFilename c) = [c] := by
  decide

/-- C6 witness: the round trip at `'A'`. -/
theorem filename_roundtrip_witness :
    filenameToChar (charToFilename 'A') = ['A'] :=
  filename_roundtrip 'A' (by decide)

/-- C7: each of the five markup-significant characters is replaced by an
entity reference — never embedded raw — by both template renderers. -/
theorem label_escaping :
    ∀ c ∈ ['<', '>', '&', '"', '\''],
      htmlEscapeChar c ≠ [c] ∧ htmlEscapeChar c ∈ entityRefs ∧
      webDisplayChar c ≠ [c] ∧ webDisplayChar c ∈ entityRefs := by
  decide

/-- C7 witness: the escaping of `'<'`. -/
theorem label_escaping_witness :
    htmlEscapeChar '<' ≠ ['<'] ∧ htmlEscapeChar '<' ∈ entityRefs ∧
    webDisplayChar '<' ≠ ['<'] ∧ webDisplayChar '<' ∈ entityRefs :=
  label_escaping '<' (by decide)

/-- C8 counterexample: asking for a raster template on an empty file
system with the rasterizer unavailable leaves nothing behind — the SVG
that was produced mid-call is deleted by the cleanup, so the vector
output is not kept. -/
theorem raster_fallback_cex :
    generateTemplatePngFS false [] "font_template.svg" "font_template.png" = [] ∧
    ¬ "font_template.svg" ∈
        generateTemplatePngFS false [] "font_template.svg" "font_template.png" := by
  constructor
  · rfl
  · intro h
    simp [generateTemplatePngFS, svgToPng] at h

/-- C8 amended: when raster output is requested and the rasterizer is
unavailable, the call still completes (the failure is only reported),
but the SVG it produced is removed again by the cleanup and no PNG is
written, so the file system is left exactly as before; only the
`--format svg --convert-to-png` path keeps the vector output when
rasterization fails. -/
theorem raster_fallback (fs : List String) (svgPath pngPath : String) :
    generateTemplatePngFS false fs svgPath pngPath = fs ∧
    svgPath ∈ generateTemplateSvgConvertFS false fs svgPath pngPath := by
  constructor
  · simp [generateTemplatePngFS, svgToPng]
  · simp [generateTemplateSvgConvertFS, svgToPng]

/-- C9 counterexample: `generate_template` mutates the shared
generator's configuration mid-call: for a generator configured with an
`uppercase` set and a request selecting `['A']`, one of the states the
shared instance passes through during the call has a configuration
different from the pre-call one. -/
theorem shared_config_mutated_cex :
    (let cfg0 : WebConfig :=
      { character_sets :=
          [("uppercase", { characters := ['A', 'B'], scale_factor := 4,
                           baseline_offset := 150 })] }
    ∃ s ∈ generateTemplateStates
        { config := cfg0
          char_properties := webBuildCharProperties cfg0.character_sets } ['A'],
      s.config ≠ cfg0) := by
  intro cfg0
  refine ⟨{ config := customTempConfig cfg0 ['A']
            char_properties :=
              webBuildCharProperties (customTempConfig cfg0 ['A']).character_sets },
          ?_, ?_⟩
  · exact List.mem_cons_of_mem _ (List.mem_cons_self _ _)
  · intro h
    have := congrArg (fun c => c.character_sets.map Prod.fst) h
    simp [customTempConfig, cfg0] at this

/-- C9 amended: `generate_template` swaps the shared generator's
configuration to a temporary custom character-set configuration for the
duration of the call (so mid-call the shared configuration differs from
its pre-call value whenever the custom set differs), and restores the
pre-call configuration afterwards: the state trace is exactly
pre-call → swapped-to-custom → restored. -/
theorem shared_config_swap_restore (s0 : GeneratorState) (selected : List Char) :
    ∃ mid fin, generateTemplateStates s0 selected = [s0, mid, fin] ∧
      mid.config = customTempConfig s0.config selected ∧
      fin.config = s0.config := by
  exact ⟨_, _, rfl, rfl, rfl⟩

/-- C10: if the input image cannot be opened, the CLI extraction returns
`False` without raising, no character directory is created, and no
character file is written. -/
theorem extraction_open_failure_clean (chars : List Char) (cols ts m : Nat) :
    cliExtractFromImage false chars cols ts m =
      { returnedFalse := true, dirCreated := false, files := [] } := by
  rfl

end FontGen
